import Mathlib

/-!
Verification of the client-side authentication state machine of a
session-based Next.js dashboard: the Redux auth slice (reducers for the
checkStatus / login / register / logout async operations plus the
clearError / setAuthenticated / manualLogout synchronous actions), the
single-flight deduplication of the status-check network call, and the
route-guard component that renders a protected view, a loading
placeholder, or an unauthorized interstitial and issues redirects.

Shallow embedding: each reducer case of the slice becomes a pure Lean
function on the state record; the guard's render body and its effect
become pure functions of the observed store fields; the module-level
in-flight promise variable becomes an explicit record threaded through
calls.
-/

/-- User record held in the store (`interface User` in the slice). -/
structure User where
  id : String
  email : String
  name : String
  skillLevel : Option String
  preferredLanguages : Option (List String)
deriving DecidableEq, Repr

/-- The `status` field of the auth state: `"idle" | "loading" | "succeeded" | "failed"`. -/
inductive AuthStatus where
  | idle
  | loading
  | succeeded
  | failed
deriving DecidableEq, Repr

/-- `interface AuthState` of the slice: user, isAuthenticated, status, error. -/
structure AuthState where
  user : Option User
  isAuthenticated : Bool
  status : AuthStatus
  error : Option String
deriving DecidableEq, Repr

/-- `initialState` of the slice. -/
def initialState : AuthState :=
  { user := none, isAuthenticated := false, status := .idle, error := none }

/-- Fulfilled payload of `checkAuthStatus`: the `/auth/me` response body
`\x7b authenticated: bool, user? \x7d`. -/
structure CheckPayload where
  authenticated : Bool
  user : Option User
deriving DecidableEq, Repr

/-- Rejected payload produced by `rejectWithValue(error.response?.data || \x7b message \x7d)`. -/
structure RejPayload where
  message : String
deriving DecidableEq, Repr

/-- Fulfilled payload of `loginUser` / `registerUser`: a response body whose
`user` field the reducer reads (untyped in the source, so the field is optional). -/
structure AuthPayload where
  user : Option User
deriving DecidableEq, Repr

/-- Reducer `clearError`: sets `state.error = null`. -/
def clearError (s : AuthState) : AuthState :=
  { s with error := none }

/-- Reducer `setAuthenticated`: sets `state.isAuthenticated = action.payload`
and, when the payload is falsy, also `state.user = null`. -/
def setAuthenticated (b : Bool) (s : AuthState) : AuthState :=
  if b then { s with isAuthenticated := b }
  else { s with isAuthenticated := b, user := none }

/-- Reducer `manualLogout`: clears isAuthenticated and user, status to idle. -/
def manualLogout (s : AuthState) : AuthState :=
  { s with isAuthenticated := false, user := none, status := .idle }

/-- `checkAuthStatus.pending`: `state.status = "loading"`. -/
def checkStatusPending (s : AuthState) : AuthState :=
  { s with status := .loading }

/-- `checkAuthStatus.fulfilled`: status succeeded;
`isAuthenticated = payload.authenticated || !!payload.user`;
`user = payload.user || null`. -/
def checkStatusFulfilled (p : CheckPayload) (s : AuthState) : AuthState :=
  { s with status := .succeeded,
           isAuthenticated := p.authenticated || p.user.isSome,
           user := p.user }

/-- `checkAuthStatus.rejected`: status failed;
`error = action.payload ? payload.message : "Authentication check failed"`;
isAuthenticated false; user null. -/
def checkStatusRejected (po : Option RejPayload) (s : AuthState) : AuthState :=
  { s with status := .failed,
           error := some (match po with
                          | some p => p.message
                          | none => "Authentication check failed"),
           isAuthenticated := false,
           user := none }

/-- `loginUser.pending`: status loading; error cleared. -/
def loginPending (s : AuthState) : AuthState :=
  { s with status := .loading, error := none }

/-- `loginUser.fulfilled`: status succeeded; isAuthenticated true;
`user = action.payload.user`; error cleared. -/
def loginFulfilled (p : AuthPayload) (s : AuthState) : AuthState :=
  { s with status := .succeeded,
           isAuthenticated := true,
           user := p.user,
           error := none }

/-- `loginUser.rejected`: status failed;
`error = action.error.message || "Login failed"`. -/
def loginRejected (msg : Option String) (s : AuthState) : AuthState :=
  { s with status := .failed, error := some (msg.getD "Login failed") }

/-- `registerUser.pending`: status loading. -/
def registerPending (s : AuthState) : AuthState :=
  { s with status := .loading }

/-- `registerUser.fulfilled`: status succeeded; isAuthenticated true;
`user = action.payload.user`. -/
def registerFulfilled (p : AuthPayload) (s : AuthState) : AuthState :=
  { s with status := .succeeded, isAuthenticated := true, user := p.user }

/-- `registerUser.rejected`: status failed;
`error = action.error.message || "Registration failed"`. -/
def registerRejected (msg : Option String) (s : AuthState) : AuthState :=
  { s with status := .failed, error := some (msg.getD "Registration failed") }

/-- `logoutUser.pending`: immediately clears isAuthenticated and user, status loading. -/
def logoutPending (s : AuthState) : AuthState :=
  { s with isAuthenticated := false, user := none, status := .loading }

/-- `logoutUser.fulfilled`: isAuthenticated false; user null; status idle; error null. -/
def logoutFulfilled (s : AuthState) : AuthState :=
  { s with isAuthenticated := false, user := none, status := .idle, error := none }

/-- `logoutUser.rejected`: isAuthenticated false; user null; status idle. -/
def logoutRejected (s : AuthState) : AuthState :=
  { s with isAuthenticated := false, user := none, status := .idle }

/-- The actions the store can receive: the three synchronous reducers and the
pending / fulfilled / rejected phases of the four async thunks. -/
inductive AuthAction where
  | clearErrorA
  | setAuthenticatedA (b : Bool)
  | manualLogoutA
  | checkPending
  | checkFulfilled (p : CheckPayload)
  | checkRejected (po : Option RejPayload)
  | loginPendingA
  | loginFulfilledA (p : AuthPayload)
  | loginRejectedA (msg : Option String)
  | registerPendingA
  | registerFulfilledA (p : AuthPayload)
  | registerRejectedA (msg : Option String)
  | logoutPendingA
  | logoutFulfilledA
  | logoutRejectedA
deriving DecidableEq, Repr

/-- Dispatch: the slice's combined reducer. -/
def step (s : AuthState) : AuthAction → AuthState
  | .clearErrorA => clearError s
  | .setAuthenticatedA b => setAuthenticated b s
  | .manualLogoutA => manualLogout s
  | .checkPending => checkStatusPending s
  | .checkFulfilled p => checkStatusFulfilled p s
  | .checkRejected po => checkStatusRejected po s
  | .loginPendingA => loginPending s
  | .loginFulfilledA p => loginFulfilled p s
  | .loginRejectedA msg => loginRejected msg s
  | .registerPendingA => registerPending s
  | .registerFulfilledA p => registerFulfilled p s
  | .registerRejectedA msg => registerRejected msg s
  | .logoutPendingA => logoutPending s
  | .logoutFulfilledA => logoutFulfilled s
  | .logoutRejectedA => logoutRejected s

/-- Run a sequence of dispatched actions from a state. -/
def run (s : AuthState) (acts : List AuthAction) : AuthState :=
  acts.foldl step s

/-- Outcome of the `/auth/logoutExtension` network round trip. -/
inductive NetResult where
  | ok
  | err (msg : String)
deriving DecidableEq, Repr

/-- How an async thunk settles from the caller's perspective. -/
inductive ThunkPhase where
  | fulfilled
  | rejected
deriving DecidableEq, Repr

/-- The `logoutUser` thunk body: the try branch returns null and the catch
branch also returns null, so the thunk fulfills on every network outcome. -/
def logoutUserThunk : NetResult → ThunkPhase
  | .ok => .fulfilled
  | .err _ => .fulfilled

/-- Module-level single-flight state of `checkAuthStatus`:
`authCheckPromise` (the outstanding request's identity, if any), a counter
for fresh request identities, and the number of network requests issued
to `/auth/me`. -/
structure SFState where
  inflight : Option Nat
  nextId : Nat
  requests : Nat
deriving DecidableEq, Repr

/-- One `checkAuthStatus` call: if `authCheckPromise` is set the caller
awaits that same promise (a joiner); otherwise a new network request is
issued, stored in `authCheckPromise`, and awaited (the initiator). Returns
the identity of the request the caller awaits and whether the caller is
the initiator — which determines what value its thunk fulfills with. -/
def startCheck (sf : SFState) : SFState × Nat × Bool :=
  match sf.inflight with
  | some r => (sf, r, false)
  | none =>
      ({ inflight := some sf.nextId,
         nextId := sf.nextId + 1,
         requests := sf.requests + 1 }, sf.nextId, true)

/-- The outstanding request settles: both the initiator's continuation and
the catch branch reset `authCheckPromise` to null. -/
def resolveCheck (sf : SFState) : SFState :=
  { sf with inflight := none }

/-- Issue `n` successive `checkAuthStatus` calls, collecting for each
caller the request identity it awaits and its initiator/joiner role. -/
def runCalls : SFState → Nat → SFState × List (Nat × Bool)
  | sf, 0 => (sf, [])
  | sf, n + 1 =>
      let p := startCheck sf
      let q := runCalls p.1 n
      (q.1, p.2 :: q.2)

/-- The axios response the shared `authCheckPromise` resolves to: a
response object whose `data` field is the `/auth/me` body. -/
structure AxiosResponse where
  data : CheckPayload
deriving DecidableEq, Repr

/-- The value a `checkAuthStatus` caller's thunk fulfills with: the
initiator executes `return response.data`, while a joiner executes
`return await authCheckPromise`, yielding the raw response object. -/
inductive CheckObserved where
  | body (d : CheckPayload)
  | raw (r : AxiosResponse)
deriving DecidableEq, Repr

/-- Fulfillment value of a caller as a function of its role and the
response the shared promise resolves to. -/
def thunkResult (isInitiator : Bool) (r : AxiosResponse) : CheckObserved :=
  if isInitiator then .body r.data else .raw r

/-- The fields `checkAuthStatus.fulfilled` actually reads off its payload
(`payload.authenticated`, `payload.user`): on a body they are the body's
fields; on a raw response object both properties are undefined, i.e.
falsy and absent. -/
def observedPayload : CheckObserved → CheckPayload
  | .body d => d
  | .raw _ => { authenticated := false, user := none }

/-- The three views the route guard can render. -/
inductive GuardView where
  | checking
  | authorized
  | unauthorized
deriving DecidableEq, Repr

/-- Render body of `AuthGuard` in withAuth.tsx: loading or still-checking
renders the placeholder; authenticated renders the wrapped component;
otherwise the unauthorized interstitial. -/
def renderGuard (status : AuthStatus) (isAuthenticated : Bool)
    (isChecking : Bool) : GuardView :=
  if status = .loading || isChecking then .checking
  else if isAuthenticated then .authorized
  else .unauthorized

/-- Navigation commands the guard can issue through the router. -/
inductive NavCmd where
  | replace (path : String)
  | push (path : String)
deriving DecidableEq, Repr

/-- Body of the `AuthGuard` useEffect, restricted to its navigation output:
when status is not loading and the check succeeded with an unauthenticated
user, issue `router.replace("/auth/login")`. -/
def effectRun (status : AuthStatus) (isAuthenticated : Bool) : List NavCmd :=
  if status ≠ .loading then
    if status = .succeeded ∧ isAuthenticated = false then
      [NavCmd.replace "/auth/login"]
    else []
  else []

/-- The useEffect's update of the local `isChecking` flag: cleared once
status is no longer loading. -/
def effectChecking (status : AuthStatus) (isChecking : Bool) : Bool :=
  if status ≠ .loading then false else isChecking

/-- React effect semantics over a sequence of store emissions: the effect
body runs after a render exactly when its dependencies `[isAuthenticated,
status]` differ from the previous render's (and always on mount).
Collects every navigation command issued. -/
def navsFrom : Option (AuthStatus × Bool) → List (AuthStatus × Bool) → List NavCmd
  | _, [] => []
  | prev, d :: rest =>
      (if some d = prev then [] else effectRun d.1 d.2) ++ navsFrom (some d) rest

/-- Number of transitions into the state `(succeeded, isAuthenticated = false)`
along a sequence of emissions: positions whose emission is that pair and
whose predecessor (if any) is a different pair. -/
def countEntries : Option (AuthStatus × Bool) → List (AuthStatus × Bool) → Nat
  | _, [] => 0
  | prev, d :: rest =>
      (if some d ≠ prev ∧ d.1 = .succeeded ∧ d.2 = false then 1 else 0)
        + countEntries (some d) rest

/-- Consistency invariant claimed for the store: authenticated implies a
user record is present. -/
def AuthInv (s : AuthState) : Prop :=
  s.isAuthenticated = true → s.user.isSome = true

/-- Actions that respect the consistency invariant: everything except
forcing authentication on without a user and fulfilled payloads that
assert authentication while carrying no user. -/
def goodAction : AuthAction → Bool
  | .setAuthenticatedA b => !b
  | .checkFulfilled p => !p.authenticated || p.user.isSome
  | .loginFulfilledA p => p.user.isSome
  | .registerFulfilledA p => p.user.isSome
  | _ => true

/-- A concrete user record for witnesses. -/
def userA : User :=
  { id := "1", email := "a@b.com", name := "A",
    skillLevel := none, preferredLanguages := none }

/-- A state carrying a recorded error message, for counterexamples. -/
def stateWithError : AuthState :=
  { user := none, isAuthenticated := false, status := .idle, error := some "boom" }

/-- A concrete `/auth/me` response asserting an authenticated session. -/
def respA : AxiosResponse :=
  { data := { authenticated := true, user := some userA } }

/-! Theorems -/

/-- C2: For every prior auth state, after the login operation fulfills with a
payload carrying a user, the store has isAuthenticated = true, user equal to
the payload's user, status = succeeded, and error = none. -/
theorem login_fulfilled_sets_auth (s : AuthState) (p : AuthPayload) :
    loginFulfilled p s =
      { user := p.user, isAuthenticated := true,
        status := .succeeded, error := none } :=
  rfl

/-- C3: From every prior auth state, logout already at its pending phase sets
isAuthenticated = false and user = none; the clearing persists whether the
network call later fulfills or rejects; and the logout thunk fulfills on
every network outcome, so the caller always observes success. -/
theorem logout_clears_immediately (s : AuthState) (net : NetResult) :
    (logoutPending s).isAuthenticated = false ∧
    (logoutPending s).user = none ∧
    (logoutFulfilled (logoutPending s)).isAuthenticated = false ∧
    (logoutFulfilled (logoutPending s)).user = none ∧
    (logoutRejected (logoutPending s)).isAuthenticated = false ∧
    (logoutRejected (logoutPending s)).user = none ∧
    logoutUserThunk net = .fulfilled := by
  cases net <;>
    simp [logoutPending, logoutFulfilled, logoutRejected, logoutUserThunk]

/-- C4: When checkStatus fulfills with payload p, the store has
status = succeeded, isAuthenticated = (p.authenticated OR p.user present)
and user = p.user; when checkStatus rejects with payload rp, the store has
status = failed, error = the failure message, isAuthenticated = false and
user = none. -/
theorem checkStatus_reducer_spec (s : AuthState) (p : CheckPayload)
    (rp : RejPayload) :
    (checkStatusFulfilled p s).status = .succeeded ∧
    (checkStatusFulfilled p s).isAuthenticated
      = (p.authenticated || p.user.isSome) ∧
    (checkStatusFulfilled p s).user = p.user ∧
    checkStatusRejected (some rp) s =
      { user := none, isAuthenticated := false,
        status := .failed, error := some rp.message } := by
  refine ⟨rfl, rfl, rfl, rfl⟩

/-- C7: Whenever status = loading, the route guard renders the checking
placeholder regardless of isAuthenticated and of the local checking flag,
and its effect issues no navigation. -/
theorem guard_loading_renders_checking (auth ich : Bool) :
    renderGuard .loading auth ich = .checking ∧
    effectRun .loading auth = [] := by
  constructor <;> simp [renderGuard, effectRun]

/-- C10: For every prior auth state, manualLogout sets isAuthenticated =
false, user = none and status = idle while leaving error unchanged, whereas
logout fulfilled clears error to none. -/
theorem manualLogout_frame (s : AuthState) :
    manualLogout s =
      { user := none, isAuthenticated := false,
        status := .idle, error := s.error } ∧
    (logoutFulfilled s).error = none :=
  ⟨rfl, rfl⟩

/-- C5 counterexample: in the state (status = failed, isAuthenticated = true,
checking flag cleared) the guard renders the protected wrapped view, not the
unauthorized view; the claim fails at this input. -/
theorem guard_failed_claim_cex :
    renderGuard .failed true false = .authorized ∧
    renderGuard .failed true false ≠ .unauthorized := by
  constructor <;> simp [renderGuard]

/-- C5 amended: with status = failed the guard renders the unauthorized view
only when isAuthenticated = false (and the initial checking flag has
cleared); when isAuthenticated = true it renders the protected wrapped
view instead. -/
theorem guard_failed_render :
    renderGuard .failed false false = .unauthorized ∧
    renderGuard .failed true false = .authorized := by
  constructor <;> simp [renderGuard]

/-- C8 counterexample: checkStatus.pending applied to a state carrying a
recorded error leaves the error in place instead of clearing it to none. -/
theorem pending_error_not_cleared_cex :
    (checkStatusPending stateWithError).error = some "boom" :=
  rfl

/-- C8 amended: entering the pending phase of login clears error to none,
while the pending phases of checkStatus and register set status to loading
but leave the error field unchanged. -/
theorem pending_error_clearing (s : AuthState) :
    (loginPending s).error = none ∧
    (checkStatusPending s).error = s.error ∧
    (checkStatusPending s).status = .loading ∧
    (registerPending s).error = s.error ∧
    (registerPending s).status = .loading := by
  refine ⟨rfl, rfl, rfl, rfl, rfl⟩

/-- C1: at the failing input — two checkStatus calls, an initiator and a
joiner arriving while the request is outstanding, with the endpoint
answering that the session is authenticated — exactly one network request
is made (that half of the claim holds), but the joiner's thunk fulfills
with the raw response object while the initiator's fulfills with the
response body, so the callers observe different results: fed through the
fulfilled reducer, the initiator yields isAuthenticated = true and the
joiner yields isAuthenticated = false. -/
theorem checkStatus_joiner_divergence :
    (runCalls ⟨none, 0, 0⟩ 2).1.requests = 1 ∧
    (runCalls ⟨none, 0, 0⟩ 2).2 = [(0, true), (0, false)] ∧
    thunkResult true respA = CheckObserved.body respA.data ∧
    thunkResult false respA = CheckObserved.raw respA ∧
    thunkResult false respA ≠ thunkResult true respA ∧
    (checkStatusFulfilled (observedPayload (thunkResult true respA))
        initialState).isAuthenticated = true ∧
    (checkStatusFulfilled (observedPayload (thunkResult false respA))
        initialState).isAuthenticated = false := by
  refine ⟨rfl, rfl, rfl, rfl, by decide, rfl, rfl⟩

/-- The guard's navigation output over any emission sequence is exactly one
replace-to-login per transition into (succeeded, unauthenticated). -/
theorem navsFrom_eq_replicate (trace : List (AuthStatus × Bool))
    (prev : Option (AuthStatus × Bool)) :
    navsFrom prev trace =
      List.replicate (countEntries prev trace) (NavCmd.replace "/auth/login") := by
  induction trace generalizing prev with
  | nil => simp [navsFrom, countEntries]
  | cons d rest ih =>
      by_cases h1 : some d = prev
      · simp [navsFrom, countEntries, h1, ih]
      · by_cases h2 : d.1 = AuthStatus.succeeded ∧ d.2 = false
        · simp [navsFrom, countEntries, effectRun, h1, h2, ih, h2.1, h2.2]
          rw [Nat.add_comm, List.replicate_succ]
        · simp [navsFrom, countEntries, effectRun, h1, h2, ih]

/-- C6: over every sequence of store emissions observed by a mounted guard,
the navigation commands issued are exactly one replace to the login route
per transition into (status = succeeded, isAuthenticated = false); repeated
renders inside that state add none, and no push is ever issued. -/
theorem guard_redirect_once_per_transition (trace : List (AuthStatus × Bool)) :
    navsFrom none trace =
      List.replicate (countEntries none trace) (NavCmd.replace "/auth/login") :=
  navsFrom_eq_replicate trace none

/-- C9 counterexample: dispatching setAuthenticated(true) from the initial
state reaches a state with isAuthenticated = true and user = none. -/
theorem auth_invariant_cex :
    (run initialState [AuthAction.setAuthenticatedA true]).isAuthenticated
      = true ∧
    (run initialState [AuthAction.setAuthenticatedA true]).user = none := by
  constructor <;> rfl

/-- Each invariant-respecting action preserves the consistency invariant. -/
theorem step_preserves_inv (s : AuthState) (a : AuthAction)
    (hs : AuthInv s) (ha : goodAction a = true) : AuthInv (step s a) := by
  cases a
  case checkFulfilled p =>
    cases hb : p.authenticated <;> cases hu : p.user.isSome <;>
      simp_all [step, goodAction, checkStatusFulfilled, AuthInv]
  all_goals
    simp_all [step, goodAction, AuthInv, clearError, setAuthenticated,
      manualLogout, checkStatusPending, checkStatusRejected, loginPending,
      loginFulfilled, loginRejected, registerPending, registerFulfilled,
      registerRejected, logoutPending, logoutFulfilled, logoutRejected]

/-- Folding invariant-respecting actions preserves the consistency invariant. -/
theorem run_preserves_inv (acts : List AuthAction) (s : AuthState)
    (hs : AuthInv s) (h : acts.all goodAction = true) : AuthInv (run s acts) := by
  induction acts generalizing s with
  | nil => exact hs
  | cons a rest ih =>
      simp only [List.all_cons, Bool.and_eq_true] at h
      exact ih (step s a) (step_preserves_inv s a hs h.1) h.2

/-- C9 amended: in every state reachable from the initial state through
actions other than setAuthenticated(true), checkStatus-fulfilled payloads
asserting authentication without a user, and login/register-fulfilled
payloads lacking a user, isAuthenticated = true implies the user is
present; the unrestricted claim fails at setAuthenticated(true). -/
theorem auth_invariant_good_actions (acts : List AuthAction)
    (h : acts.all goodAction = true) : AuthInv (run initialState acts) :=
  run_preserves_inv acts initialState (by simp [AuthInv, initialState]) h

/-- C9 witness: a concrete invariant-respecting trace — a fulfilled login
carrying a user — reaches a state satisfying the invariant. -/
theorem auth_invariant_good_actions_witness :
    [AuthAction.loginFulfilledA ⟨some userA⟩].all goodAction = true ∧
    AuthInv (run initialState [AuthAction.loginFulfilledA ⟨some userA⟩]) :=
  ⟨by decide, auth_invariant_good_actions _ (by decide)⟩
